import Mathlib

set_option linter.unusedVariables false

/-!
Verification of the token-verification-and-key-cache subsystem of
`src/bem_saude/api/auth.py` (functions `_obter_jwks` and `validar_token`),
shallowly embedded in Lean.

The embedding models:
 - the module-level JWKS cache `_jwks_cache` as an `Option JwksDoc` threaded
   explicitly through the functions;
 - the outcome of the single `httpx.get` network call as a `FetchResult`
   parameter (success with a parsed JSON document, a transport error, a
   non-success HTTP status surfaced by `raise_for_status`, or a body that is
   not valid JSON so that `response.json()` raises `json.JSONDecodeError`);
 - `jose.jwt.decode` (python-jose) symbolically: an RSA signature over the
   signing input is modelled as a tag string computed by `mkSig` from the key
   material, and claim validation follows python-jose's order and comparisons
   (`_validate_iat` only checks the claim is an integer and never compares it
   to the clock; `_validate_nbf` rejects when `nbf > now + leeway`;
   `_validate_exp` rejects when `exp < now - leeway`; audience is a membership
   check; issuer an equality check; the call site passes no leeway, so jose's
   default `leeway = 0` applies);
 - the two `except` clauses of `validar_token`: `JWTError` becomes HTTP 401
   "Token inválido ou expirado" and `httpx.HTTPError` becomes HTTP 503
   "Erro ao validar autenticação"; any other exception (such as
   `json.JSONDecodeError`, a `ValueError`) escapes the function unhandled.
-/

/-- One entry of the provider's JWKS `keys` array, with the five fields
`validar_token` reads (`kid`, `kty`, `use`, `n`, `e`). -/
structure JwkEntry where
  kid : String
  kty : String
  use : String
  n : String
  e : String
deriving Repr, DecidableEq

/-- A fetched JWKS JSON document; `keys?` is `none` when the top-level
`"keys"` field is absent (the code reads it with `jwks.get("keys", [])`). -/
structure JwksDoc where
  keys? : Option (List JwkEntry)
deriving Repr, DecidableEq

/-- The `rsa_key` dict `validar_token` builds from the matching JWKS entry. -/
structure RsaKey where
  kty : String
  kid : String
  use : String
  n : String
  e : String
deriving Repr, DecidableEq

/-- Decoded JWT claim set. `aud` is kept as a list (python-jose wraps a
single string audience into a singleton list before its membership check);
`extra` carries any additional provider claims. -/
structure Claims where
  iss : String
  aud : List String
  sub : String
  exp : Int
  iat : Int
  nbf? : Option Int
  extra : List (String × String)
deriving Repr, DecidableEq

/-- A structurally well-formed JWT: unverified header fields (`alg`, optional
`kid`), the claim set, and the signature part (a string). -/
structure Token where
  alg : String
  kid? : Option String
  claims : Claims
  sig : String
deriving Repr, DecidableEq

/-- The raw bearer credential handed to `validar_token`: either unparsable
(`jwt.get_unverified_header` raises `JWTError`) or a parsed token. -/
inductive RawToken
  | malformed
  | parsed (t : Token)
deriving Repr, DecidableEq

/-- The serialized signing input (header plus claims) that the issuer's RSA
key signs. Only used as the argument of the symbolic signature `mkSig`. -/
def signingInput (alg : String) (kid? : Option String) (c : Claims) : String :=
  alg ++ "." ++ (kid?.getD "") ++ "." ++ c.iss ++ "." ++ String.intercalate "," c.aud
    ++ "." ++ c.sub ++ "." ++ toString c.exp ++ "." ++ toString c.iat
    ++ "." ++ (match c.nbf? with | some v => toString v | none => "")
    ++ "." ++ String.intercalate "," (c.extra.map (fun p => p.1 ++ "=" ++ p.2))

/-- Symbolic RSA signature: the unique signature value that verifies under
the public key material `(n, e)` for a given signing input. A token's
signature checks out iff it equals `mkSig` of the resolved key's material and
the token's own signing input. -/
def mkSig (n e input : String) : String :=
  "RSASIG[" ++ n ++ "|" ++ e ++ "|" ++ input ++ "]"

/-- The classified causes with which `jose.jwt.decode` raises; all of them
are (subclasses of) `JWTError`, so `validar_token` catches every one of them
in its single `except JWTError` clause. -/
inductive DecodeError
  | unsupportedAlgorithm
  | invalidSignature
  | notYetValid
  | expiredSignature
  | invalidAudience
  | invalidIssuer
deriving Repr, DecidableEq

/-- python-jose's `_validate_nbf`: violated when the claim is present and
`nbf > now + leeway`. -/
def nbfViolated (nbf? : Option Int) (now leeway : Int) : Bool :=
  match nbf? with
  | some nbf => decide (nbf > now + leeway)
  | none => false

/-- Model of `jose.jwt.decode(token, key, algorithms, audience, issuer)`:
check the declared algorithm against the allow-list, verify the signature,
then validate claims in python-jose's order (`iat` format only — python-jose
never compares `iat` to the clock — then `nbf`, `exp`, `aud`, `iss`).
The call site in `validar_token` passes no leeway, so jose's default 0 is
used there. -/
def decodeJwt (t : Token) (key : RsaKey) (algorithms : List String)
    (audience issuer : String) (now leeway : Int) : Except DecodeError Claims :=
  if t.alg ∉ algorithms then .error .unsupportedAlgorithm
  else if t.sig ≠ mkSig key.n key.e (signingInput t.alg t.kid? t.claims) then
    .error .invalidSignature
  else if nbfViolated t.claims.nbf? now leeway then .error .notYetValid
  else if t.claims.exp < now - leeway then .error .expiredSignature
  else if audience ∉ t.claims.aud then .error .invalidAudience
  else if t.claims.iss ≠ issuer then .error .invalidIssuer
  else .ok t.claims

/-- Outcome of the network part of `_obter_jwks` (the `httpx.get` call,
`raise_for_status`, and `response.json()`). -/
inductive FetchResult
  | ok (doc : JwksDoc)
  | networkError
  | httpStatusError (code : Nat)
  | invalidJsonBody
deriving Repr, DecidableEq

/-- The exception `_obter_jwks` raises on a failed fetch: `httpx.HTTPError`
(covering transport errors and `raise_for_status`), or `json.JSONDecodeError`
from `response.json()` — the latter is a `ValueError`, not an
`httpx.HTTPError`, and matches neither `except` clause in `validar_token`. -/
inductive ObterError
  | httpxError
  | jsonDecodeError
deriving Repr, DecidableEq

/-- Result of one call to `_obter_jwks`: the returned document or the raised
exception, the cache after the call, and how many network fetches the call
performed. -/
structure ObterOut where
  result : Except ObterError JwksDoc
  cache : Option JwksDoc
  fetches : Nat
deriving Repr

/-- Model of `_obter_jwks`: return the cached document whenever the cache is
populated (no staleness check of any kind); otherwise perform exactly one
fetch and store the parsed document only on full success. -/
def obter_jwks (cache : Option JwksDoc) (fetch : FetchResult) : ObterOut :=
  match cache with
  | some doc => ⟨.ok doc, some doc, 0⟩
  | none =>
    match fetch with
    | .ok doc => ⟨.ok doc, some doc, 1⟩
    | .networkError => ⟨.error .httpxError, none, 1⟩
    | .httpStatusError _ => ⟨.error .httpxError, none, 1⟩
    | .invalidJsonBody => ⟨.error .jsonDecodeError, none, 1⟩

/-- The configuration fields `validar_token` reads. -/
structure Config where
  auth0Domain : String
  auth0Audience : String
deriving Repr, DecidableEq

/-- The issuer string `validar_token` passes to `jwt.decode`:
`f"https://{configuracoes.AUTH0_DOMAIN}/"`. -/
def expectedIssuer (cfg : Config) : String :=
  "https://" ++ cfg.auth0Domain ++ "/"

/-- The `rsa_key` dict `validar_token` builds from a matching JWKS entry. -/
def rsaOf (k : JwkEntry) : RsaKey :=
  ⟨k.kty, k.kid, k.use, k.n, k.e⟩

/-- The key-matching loop of `validar_token`: scan the `keys` list in order,
build the `rsa_key` dict from the FIRST entry whose `kid` equals the token's
declared `kid`, and `break`. -/
def findRsaKey (keys : List JwkEntry) (kid? : Option String) : Option RsaKey :=
  match keys with
  | [] => none
  | k :: rest =>
    if some k.kid = kid? then some (rsaOf k)
    else findRsaKey rest kid?

/-- What a call to `validar_token` produces: the decoded payload, an
`HTTPException` with status code and detail, or an exception that matches
neither `except` clause and escapes the function. -/
inductive AuthOutcome
  | payload (claims : Claims)
  | httpError (statusCode : Nat) (detail : String)
  | unhandled (e : ObterError)
deriving Repr, DecidableEq

/-- Result of one call to `validar_token`: its outcome, the JWKS cache after
the call, and the number of network fetches the call performed. -/
structure ValidarOut where
  outcome : AuthOutcome
  cache : Option JwksDoc
  fetches : Nat
deriving Repr, DecidableEq

/-- Model of `validar_token`: obtain the JWKS (cached or fetched), read the
unverified header's `kid`, scan the key list for the first match, raise 401
"Token inválido: chave não encontrada" when no entry matches (with no
re-fetch), otherwise run `jwt.decode` with `algorithms=["RS256"]`, the
configured audience, and the issuer built from the configured domain.
`JWTError` maps to 401 "Token inválido ou expirado", `httpx.HTTPError` to
503 "Erro ao validar autenticação", and a JSON-decode failure of the JWKS
body escapes unhandled. -/
def validar_token (cfg : Config) (cache : Option JwksDoc) (fetch : FetchResult)
    (raw : RawToken) (now : Int) : ValidarOut :=
  let o := obter_jwks cache fetch
  match o.result with
  | .error .httpxError =>
    ⟨.httpError 503 "Erro ao validar autenticação", o.cache, o.fetches⟩
  | .error .jsonDecodeError => ⟨.unhandled .jsonDecodeError, o.cache, o.fetches⟩
  | .ok jwks =>
    match raw with
    | .malformed => ⟨.httpError 401 "Token inválido ou expirado", o.cache, o.fetches⟩
    | .parsed t =>
      match findRsaKey (jwks.keys?.getD []) t.kid? with
      | none =>
        ⟨.httpError 401 "Token inválido: chave não encontrada", o.cache, o.fetches⟩
      | some key =>
        match decodeJwt t key ["RS256"] cfg.auth0Audience (expectedIssuer cfg) now 0 with
        | .ok claims => ⟨.payload claims, o.cache, o.fetches⟩
        | .error _ => ⟨.httpError 401 "Token inválido ou expirado", o.cache, o.fetches⟩

/-! Interleaving model for concurrent first calls to `_obter_jwks`.

The Python module guards the fetch only with `if _jwks_cache is not None:
return _jwks_cache`; the network call releases the GIL, so two requests can
both pass the check before either stores the result. Each thread runs the
statements of `_obter_jwks` as atomic steps: check the cache, perform the
fetch, store the parsed document. -/

/-- Program counter of one thread executing `_obter_jwks`. -/
inductive TPc
  | checkCache
  | doFetch
  | writeCache
  | done
deriving Repr, DecidableEq

/-- Shared cache plus fetch counter, and the two threads' program
counters. -/
structure RaceState where
  cache : Option JwksDoc
  fetches : Nat
  pc0 : TPc
  pc1 : TPc
deriving Repr, DecidableEq

/-- One atomic step of a single thread: the cache check returns early when
the cache is already populated, otherwise the thread fetches (one network
call) and then stores the document. -/
def stepThread (d : JwksDoc) (cache : Option JwksDoc) (fetches : Nat) :
    TPc → Option JwksDoc × Nat × TPc
  | .checkCache => (cache, fetches, if cache.isSome then .done else .doFetch)
  | .doFetch => (cache, fetches + 1, .writeCache)
  | .writeCache => (some d, fetches, .done)
  | .done => (cache, fetches, .done)

/-- Scheduler step: run one atomic step of thread 0 (`false`) or thread 1
(`true`). -/
def raceStep (d : JwksDoc) (s : RaceState) (tid : Bool) : RaceState :=
  if tid then
    let r := stepThread d s.cache s.fetches s.pc1
    ⟨r.1, r.2.1, s.pc0, r.2.2⟩
  else
    let r := stepThread d s.cache s.fetches s.pc0
    ⟨r.1, r.2.1, r.2.2, s.pc1⟩

/-- Run a schedule (list of thread ids) from a state. -/
def raceRun (d : JwksDoc) (sched : List Bool) (s : RaceState) : RaceState :=
  sched.foldl (raceStep d) s

/-- Both threads start at the cache check with an empty cache and no fetch
performed. -/
def raceInit : RaceState := ⟨none, 0, .checkCache, .checkCache⟩

/-! Concrete sample values used by witnesses and counterexamples. -/

/-- Sample configuration. -/
def cfgEx : Config := ⟨"bem-saude.example.auth0.com", "https://api.bem-saude"⟩

/-- Sample JWKS entry with identifier `k1`. -/
def keyEx : JwkEntry := ⟨"k1", "RSA", "sig", "mod1", "AQAB"⟩

/-- Sample JWKS document containing only `k1`. -/
def docEx : JwksDoc := ⟨some [keyEx]⟩

/-- The `rsa_key` dict built from `keyEx`. -/
def rsaEx : RsaKey := ⟨"RSA", "k1", "sig", "mod1", "AQAB"⟩

/-- Sample claim set, valid at `now = 1000` against `cfgEx`. -/
def claimsEx : Claims :=
  ⟨expectedIssuer cfgEx, ["https://api.bem-saude"], "user-1", 2000, 500, none, []⟩

/-- Sample token: RS256, kid `k1`, claims `claimsEx`, correctly signed with
`keyEx`'s material. -/
def tokEx : Token :=
  ⟨"RS256", some "k1", claimsEx, mkSig "mod1" "AQAB" (signingInput "RS256" (some "k1") claimsEx)⟩

/-- A token with the same header as `t` but claim set `c`, correctly
re-signed with `key`'s material (used to build single-aspect variants). -/
def withClaims (t : Token) (key : RsaKey) (c : Claims) : Token :=
  ⟨t.alg, t.kid?, c, mkSig key.n key.e (signingInput t.alg t.kid? c)⟩

/-- `claimsEx` with a wrong issuer. -/
def claimsBadIss : Claims := { claimsEx with iss := "https://attacker.example/" }

/-- `claimsEx` with an audience list not containing the configured one. -/
def claimsBadAud : Claims := { claimsEx with aud := ["https://other.example"] }

/-- `claimsEx` already expired at `now = 1000`. -/
def claimsExpired : Claims := { claimsEx with exp := 900 }

/-- `claimsEx` with expiry exactly at `now = 1000` and an issued-at far in
the future. -/
def claimsBoundary : Claims := { claimsEx with exp := 1000, iat := 99999 }

/-- `tokEx` re-signed over `claimsBadIss`. -/
def tokBadIss : Token := withClaims tokEx rsaEx claimsBadIss

/-- `tokEx` re-signed over `claimsBadAud`. -/
def tokBadAud : Token := withClaims tokEx rsaEx claimsBadAud

/-- `tokEx` re-signed over `claimsExpired`. -/
def tokExpired : Token := withClaims tokEx rsaEx claimsExpired

/-- `tokEx` with one extra byte appended to its signature. -/
def tokBadSig : Token := { tokEx with sig := tokEx.sig ++ "0" }

/-- `tokEx` re-signed over `claimsBoundary`. -/
def tokBoundary : Token := withClaims tokEx rsaEx claimsBoundary

/-- A token declaring the symmetric algorithm HS256, with a signature that
is valid for that declared algorithm. -/
def tokHs : Token :=
  ⟨"HS256", some "k1", claimsEx, mkSig "mod1" "AQAB" (signingInput "HS256" (some "k1") claimsEx)⟩

/-- A second JWKS entry sharing identifier `k1` but with different key
material. -/
def keyDup : JwkEntry := ⟨"k1", "RSA", "sig", "mod2", "AQAB"⟩

/-! Helper lemmas about the embedded functions. -/

/-- `jwt.decode` succeeds and returns the claim set verbatim when the
declared algorithm is the allowed one, the signature verifies under the
resolved key, and the `nbf`, `exp`, `aud`, `iss` checks pass. No condition
on `iat` is needed: python-jose never compares it to the clock. -/
theorem decodeJwt_ok (t : Token) (key : RsaKey) (audience issuer : String)
    (now : Int)
    (halg : t.alg = "RS256")
    (hsig : t.sig = mkSig key.n key.e (signingInput t.alg t.kid? t.claims))
    (hnbf : nbfViolated t.claims.nbf? now 0 = false)
    (hexp : now ≤ t.claims.exp)
    (haud : audience ∈ t.claims.aud)
    (hiss : t.claims.iss = issuer) :
    decodeJwt t key ["RS256"] audience issuer now 0 = .ok t.claims := by
  unfold decodeJwt
  rw [if_neg (by simp [halg]), if_neg (by simp [hsig]), if_neg (by simp [hnbf]),
    if_neg (by omega), if_neg (by simp [haud]), if_neg (by simp [hiss])]

/-- Any `JWTError` raised by `jwt.decode` is caught by the single
`except JWTError` clause and surfaced as the one generic 401 detail. -/
theorem outcome_of_decode_error (cfg : Config) (doc : JwksDoc) (fetch : FetchResult)
    (t : Token) (now : Int) (key : RsaKey) (err : DecodeError)
    (hfind : findRsaKey (doc.keys?.getD []) t.kid? = some key)
    (hdec : decodeJwt t key ["RS256"] cfg.auth0Audience (expectedIssuer cfg) now 0
      = .error err) :
    (validar_token cfg (some doc) fetch (.parsed t) now).outcome =
      .httpError 401 "Token inválido ou expirado" := by
  simp [validar_token, obter_jwks, hfind, hdec]

/-- A successful `jwt.decode` makes `validar_token` return the payload. -/
theorem outcome_of_decode_ok (cfg : Config) (doc : JwksDoc) (fetch : FetchResult)
    (t : Token) (now : Int) (key : RsaKey)
    (hfind : findRsaKey (doc.keys?.getD []) t.kid? = some key)
    (hdec : decodeJwt t key ["RS256"] cfg.auth0Audience (expectedIssuer cfg) now 0
      = .ok t.claims) :
    (validar_token cfg (some doc) fetch (.parsed t) now).outcome = .payload t.claims := by
  simp [validar_token, obter_jwks, hfind, hdec]

/-- The matching loop returns the first entry whose `kid` matches, whatever
comes after it in the list. -/
theorem findRsaKey_append (pre : List JwkEntry) (k : JwkEntry) (post : List JwkEntry)
    (kid? : Option String)
    (hpre : ∀ k' ∈ pre, some k'.kid ≠ kid?) (hk : some k.kid = kid?) :
    findRsaKey (pre ++ k :: post) kid? = some (rsaOf k) := by
  induction pre with
  | nil => simp [findRsaKey, hk]
  | cons a as ih =>
    rw [List.cons_append, findRsaKey, if_neg (hpre a (by simp))]
    exact ih (fun k' h => hpre k' (by simp [h]))

/-! Claim theorems. -/

/-- Claim C1 (code evaluated at the failing input): with a cached JWKS whose
only key is `k1`, a token declaring kid `k2` is rejected immediately with
401 "Token inválido: chave não encontrada" and ZERO network fetches —
`validar_token` performs no JWKS re-fetch and no retried lookup before
declaring the key not found, contrary to the refresh-and-retry the claim
describes. -/
theorem c1_kid_miss_no_refresh :
    validar_token cfgEx (some docEx) FetchResult.networkError
        (.parsed ⟨"RS256", some "k2", claimsEx, "sigX"⟩) 1000 =
      ⟨.httpError 401 "Token inválido: chave não encontrada", some docEx, 0⟩ := by
  rfl

/-- Claim C2 (code evaluated at the failing input): two concurrent first
calls that both pass the `if _jwks_cache is not None` check before either
stores the result each perform their own network fetch — the schedule
`[t0, t1, t0, t1, t0, t1]` drives both threads to completion with TWO
fetches, contrary to the single coalesced fetch the claim describes. -/
theorem c2_concurrent_miss_double_fetch :
    raceRun docEx [false, true, false, true, false, true] raceInit =
      ⟨some docEx, 2, .done, .done⟩ := by
  rfl

/-- Claim C3: a fetch that does not fully succeed never modifies the cache;
in particular, when a snapshot is already cached, any token whose kid
resolves in that snapshot and that passes `jwt.decode` is still accepted,
whatever the network would have answered. -/
theorem c3_failed_fetch_keeps_snapshot (fetch : FetchResult)
    (hfail : ∀ d, fetch ≠ FetchResult.ok d)
    (cache : Option JwksDoc) (cfg : Config) (doc : JwksDoc) (t : Token)
    (now : Int) (key : RsaKey)
    (hfind : findRsaKey (doc.keys?.getD []) t.kid? = some key)
    (hdec : decodeJwt t key ["RS256"] cfg.auth0Audience (expectedIssuer cfg) now 0
      = .ok t.claims) :
    (obter_jwks cache fetch).cache = cache ∧
    (cache = some doc →
      (validar_token cfg cache fetch (.parsed t) now).outcome = .payload t.claims) := by
  refine ⟨?_, ?_⟩
  · cases cache with
    | some d => rfl
    | none =>
      cases fetch with
      | ok d => exact absurd rfl (hfail d)
      | networkError => rfl
      | httpStatusError c => rfl
      | invalidJsonBody => rfl
  · intro hc
    subst hc
    exact outcome_of_decode_ok cfg doc fetch t now key hfind hdec

/-- Witness for C3 at concrete inputs: a network error during (a would-be)
fetch leaves the cached `docEx` intact and `tokEx` still verifies. -/
theorem c3_witness :
    (obter_jwks (some docEx) FetchResult.networkError).cache = some docEx ∧
    (some docEx = some docEx →
      (validar_token cfgEx (some docEx) FetchResult.networkError (.parsed tokEx) 1000).outcome
        = .payload tokEx.claims) :=
  c3_failed_fetch_keeps_snapshot FetchResult.networkError
    (fun d h => FetchResult.noConfusion h) (some docEx) cfgEx docEx tokEx 1000 rsaEx
    (by rfl) (by rfl)

/-- Counterexample to claim C4 as stated: a JWKS body that is not valid JSON
(`response.json()` raises `json.JSONDecodeError`) does NOT surface as
HTTP 503 — the exception matches neither `except` clause and escapes
`validar_token` unclassified. -/
theorem c4_counterexample :
    (validar_token cfgEx none FetchResult.invalidJsonBody (.parsed tokEx) 1000).outcome
      = .unhandled .jsonDecodeError ∧
    (validar_token cfgEx none FetchResult.invalidJsonBody (.parsed tokEx) 1000).outcome
      ≠ .httpError 503 "Erro ao validar autenticação" := by
  exact ⟨rfl, by decide⟩

/-- Claim C4 as amended: a network error or a non-success provider status is
caught as `httpx.HTTPError` and surfaced as HTTP 503 "Erro ao validar
autenticação"; a body that is not valid JSON instead raises an uncaught
`json.JSONDecodeError` that escapes the component unclassified. -/
theorem c4_fetch_error_mapping (cfg : Config) (raw : RawToken) (now : Int)
    (fetch : FetchResult)
    (hf : fetch = FetchResult.networkError ∨ ∃ c, fetch = FetchResult.httpStatusError c) :
    (validar_token cfg none fetch raw now).outcome =
      .httpError 503 "Erro ao validar autenticação" ∧
    (validar_token cfg none FetchResult.invalidJsonBody raw now).outcome =
      .unhandled .jsonDecodeError := by
  refine ⟨?_, rfl⟩
  rcases hf with h | ⟨c, h⟩ <;> subst h <;> rfl

/-- Witness for C4's amended theorem at concrete inputs. -/
theorem c4_witness :
    (validar_token cfgEx none FetchResult.networkError (.parsed tokEx) 1000).outcome =
      .httpError 503 "Erro ao validar autenticação" ∧
    (validar_token cfgEx none FetchResult.invalidJsonBody (.parsed tokEx) 1000).outcome =
      .unhandled .jsonDecodeError :=
  c4_fetch_error_mapping cfgEx (.parsed tokEx) 1000 FetchResult.networkError (Or.inl rfl)

/-- Claim C5: a token whose header declares any algorithm other than RS256
is never accepted — `jwt.decode` is called with `algorithms=["RS256"]`, so
python-jose raises its algorithm-not-allowed error before any signature is
even tried, and `validar_token` never returns a payload for such a token,
whatever the cache, the network, and the clock. -/
theorem c5_unsupported_algorithm_rejected (t : Token) (halg : t.alg ≠ "RS256") :
    (∀ (key : RsaKey) (audience issuer : String) (now leeway : Int),
      decodeJwt t key ["RS256"] audience issuer now leeway
        = .error .unsupportedAlgorithm) ∧
    (∀ (cfg : Config) (cache : Option JwksDoc) (fetch : FetchResult) (now : Int)
      (claims : Claims),
      (validar_token cfg cache fetch (.parsed t) now).outcome ≠ .payload claims) := by
  have hdec : ∀ (key : RsaKey) (audience issuer : String) (now leeway : Int),
      decodeJwt t key ["RS256"] audience issuer now leeway
        = .error .unsupportedAlgorithm := by
    intro key audience issuer now leeway
    unfold decodeJwt
    rw [if_pos (by simp [halg])]
  refine ⟨hdec, ?_⟩
  intro cfg cache fetch now claims
  unfold validar_token
  cases hres : (obter_jwks cache fetch).result with
  | error err => cases err <;> simp [hres]
  | ok jwks =>
    cases hfind : findRsaKey (jwks.keys?.getD []) t.kid? with
    | none => simp [hres, hfind]
    | some key => simp [hres, hfind, hdec key]

/-- Witness for C5: the HS256 token `tokHs` (whose signature is valid for
its declared algorithm) is classified `unsupportedAlgorithm` by the decode
step and is not accepted by `validar_token`. -/
theorem c5_witness :
    decodeJwt tokHs rsaEx ["RS256"] cfgEx.auth0Audience (expectedIssuer cfgEx) 1000 0
      = .error .unsupportedAlgorithm ∧
    (validar_token cfgEx (some docEx) FetchResult.networkError (.parsed tokHs) 1000).outcome
      ≠ .payload claimsEx :=
  ⟨(c5_unsupported_algorithm_rejected tokHs (by decide)).1 rsaEx
      cfgEx.auth0Audience (expectedIssuer cfgEx) 1000 0,
   (c5_unsupported_algorithm_rejected tokHs (by decide)).2 cfgEx (some docEx)
      FetchResult.networkError 1000 claimsEx⟩

/-- Claim C9: a fetched JWKS document without a top-level `keys` field is
read as an empty key list by `jwks.get("keys", [])`, so no kid ever matches
and the token is rejected with 401 "Token inválido: chave não encontrada" —
not with the 503 fetch-error classification. -/
theorem c9_missing_keys_is_empty_set (cfg : Config) (doc : JwksDoc) (t : Token)
    (now : Int) (hk : doc.keys? = none) :
    (validar_token cfg none (FetchResult.ok doc) (.parsed t) now).outcome =
      .httpError 401 "Token inválido: chave não encontrada" := by
  simp [validar_token, obter_jwks, hk, findRsaKey]

/-- Witness for C9 at concrete inputs. -/
theorem c9_witness :
    (validar_token cfgEx none (FetchResult.ok ⟨none⟩) (.parsed tokEx) 1000).outcome =
      .httpError 401 "Token inválido: chave não encontrada" :=
  c9_missing_keys_is_empty_set cfgEx ⟨none⟩ tokEx 1000 rfl

/-- Claim C6: a token whose kid resolves in the current key set, declaring
RS256, correctly signed with the resolved key, with unexpired time claims,
an audience list containing the configured audience and the configured
issuer, is accepted, and `validar_token` returns its full claim set
verbatim. -/
theorem c6_valid_token_claims_returned (cfg : Config) (doc : JwksDoc)
    (fetch : FetchResult) (t : Token) (now : Int) (key : RsaKey)
    (hfind : findRsaKey (doc.keys?.getD []) t.kid? = some key)
    (halg : t.alg = "RS256")
    (hsig : t.sig = mkSig key.n key.e (signingInput t.alg t.kid? t.claims))
    (hnbf : nbfViolated t.claims.nbf? now 0 = false)
    (hexp : now ≤ t.claims.exp)
    (haud : cfg.auth0Audience ∈ t.claims.aud)
    (hiss : t.claims.iss = expectedIssuer cfg) :
    (validar_token cfg (some doc) fetch (.parsed t) now).outcome = .payload t.claims :=
  outcome_of_decode_ok cfg doc fetch t now key hfind
    (decodeJwt_ok t key cfg.auth0Audience (expectedIssuer cfg) now halg hsig hnbf
      hexp haud hiss)

/-- Witness for C6: the concrete valid token `tokEx` verifies against the
cached `docEx` and its claim set comes back unchanged. -/
theorem c6_witness :
    (validar_token cfgEx (some docEx) FetchResult.networkError (.parsed tokEx) 1000).outcome
      = .payload tokEx.claims :=
  c6_valid_token_claims_returned cfgEx docEx FetchResult.networkError tokEx 1000 rsaEx
    rfl rfl rfl rfl (by decide) (by decide) rfl

/-- Counterexample to claim C7 as stated: the four single-aspect variants of
the valid token `tokEx` (wrong issuer, wrong audience, altered signature,
expired) and even a structurally malformed credential all produce the SAME
generic outcome, 401 "Token inválido ou expirado" — there is no
aspect-specific classification in what `validar_token` returns. -/
theorem c7_counterexample :
    (validar_token cfgEx (some docEx) FetchResult.networkError (.parsed tokBadIss) 1000).outcome
      = .httpError 401 "Token inválido ou expirado" ∧
    (validar_token cfgEx (some docEx) FetchResult.networkError (.parsed tokBadAud) 1000).outcome
      = .httpError 401 "Token inválido ou expirado" ∧
    (validar_token cfgEx (some docEx) FetchResult.networkError (.parsed tokBadSig) 1000).outcome
      = .httpError 401 "Token inválido ou expirado" ∧
    (validar_token cfgEx (some docEx) FetchResult.networkError (.parsed tokExpired) 1000).outcome
      = .httpError 401 "Token inválido ou expirado" ∧
    (validar_token cfgEx (some docEx) FetchResult.networkError RawToken.malformed 1000).outcome
      = .httpError 401 "Token inválido ou expirado" := by
  refine ⟨rfl, rfl, by decide, rfl, rfl⟩

/-- Claim C7 as amended: each single-aspect change to an otherwise-valid
token flips the result to a rejection whose specific cause exists only at
the python-jose layer (`invalidIssuer`, `invalidAudience`,
`invalidSignature`, `expiredSignature`); `validar_token` catches every one
of them in the same `except JWTError` clause and surfaces the one generic
401 "Token inválido ou expirado". -/
theorem c7_single_aspect_rejections (cfg : Config) (doc : JwksDoc)
    (fetch : FetchResult) (t : Token) (now : Int) (key : RsaKey)
    (hfind : findRsaKey (doc.keys?.getD []) t.kid? = some key)
    (halg : t.alg = "RS256")
    (hnbf : nbfViolated t.claims.nbf? now 0 = false)
    (hexp : now ≤ t.claims.exp)
    (haud : cfg.auth0Audience ∈ t.claims.aud)
    (badIss : String) (hbadIss : badIss ≠ expectedIssuer cfg)
    (badAud : List String) (hbadAud : cfg.auth0Audience ∉ badAud)
    (badSig : String)
    (hbadSig : badSig ≠ mkSig key.n key.e (signingInput t.alg t.kid? t.claims))
    (badExp : Int) (hbadExp : badExp < now) :
    decodeJwt (withClaims t key { t.claims with iss := badIss }) key ["RS256"]
        cfg.auth0Audience (expectedIssuer cfg) now 0 = .error .invalidIssuer ∧
    (validar_token cfg (some doc) fetch
        (.parsed (withClaims t key { t.claims with iss := badIss })) now).outcome
      = .httpError 401 "Token inválido ou expirado" ∧
    decodeJwt (withClaims t key { t.claims with aud := badAud }) key ["RS256"]
        cfg.auth0Audience (expectedIssuer cfg) now 0 = .error .invalidAudience ∧
    (validar_token cfg (some doc) fetch
        (.parsed (withClaims t key { t.claims with aud := badAud })) now).outcome
      = .httpError 401 "Token inválido ou expirado" ∧
    decodeJwt { t with sig := badSig } key ["RS256"]
        cfg.auth0Audience (expectedIssuer cfg) now 0 = .error .invalidSignature ∧
    (validar_token cfg (some doc) fetch
        (.parsed { t with sig := badSig }) now).outcome
      = .httpError 401 "Token inválido ou expirado" ∧
    decodeJwt (withClaims t key { t.claims with exp := badExp }) key ["RS256"]
        cfg.auth0Audience (expectedIssuer cfg) now 0 = .error .expiredSignature ∧
    (validar_token cfg (some doc) fetch
        (.parsed (withClaims t key { t.claims with exp := badExp })) now).outcome
      = .httpError 401 "Token inválido ou expirado" := by
  have hIss : decodeJwt (withClaims t key { t.claims with iss := badIss }) key ["RS256"]
      cfg.auth0Audience (expectedIssuer cfg) now 0 = .error .invalidIssuer := by
    unfold decodeJwt withClaims
    rw [if_neg (by simp [halg]), if_neg (by simp), if_neg (by simp [hnbf]),
      if_neg (by simp; omega), if_neg (by simp [haud]), if_pos (by simp [hbadIss])]
  have hAud : decodeJwt (withClaims t key { t.claims with aud := badAud }) key ["RS256"]
      cfg.auth0Audience (expectedIssuer cfg) now 0 = .error .invalidAudience := by
    unfold decodeJwt withClaims
    rw [if_neg (by simp [halg]), if_neg (by simp), if_neg (by simp [hnbf]),
      if_neg (by simp; omega), if_pos (by simp [hbadAud])]
  have hSig : decodeJwt { t with sig := badSig } key ["RS256"]
      cfg.auth0Audience (expectedIssuer cfg) now 0 = .error .invalidSignature := by
    unfold decodeJwt
    rw [if_neg (by simp [halg]), if_pos (by simp [hbadSig])]
  have hExp : decodeJwt (withClaims t key { t.claims with exp := badExp }) key ["RS256"]
      cfg.auth0Audience (expectedIssuer cfg) now 0 = .error .expiredSignature := by
    unfold decodeJwt withClaims
    rw [if_neg (by simp [halg]), if_neg (by simp), if_neg (by simp [hnbf]),
      if_pos (by simp; omega)]
  exact ⟨hIss,
    outcome_of_decode_error cfg doc fetch _ now key .invalidIssuer hfind hIss,
    hAud,
    outcome_of_decode_error cfg doc fetch _ now key .invalidAudience hfind hAud,
    hSig,
    outcome_of_decode_error cfg doc fetch _ now key .invalidSignature hfind hSig,
    hExp,
    outcome_of_decode_error cfg doc fetch _ now key .expiredSignature hfind hExp⟩

/-- Witness for C7's amended theorem at the concrete variants of `tokEx`. -/
theorem c7_witness :
    decodeJwt tokBadIss rsaEx ["RS256"] cfgEx.auth0Audience (expectedIssuer cfgEx) 1000 0
      = .error .invalidIssuer ∧
    (validar_token cfgEx (some docEx) FetchResult.networkError (.parsed tokBadIss) 1000).outcome
      = .httpError 401 "Token inválido ou expirado" ∧
    decodeJwt tokBadAud rsaEx ["RS256"] cfgEx.auth0Audience (expectedIssuer cfgEx) 1000 0
      = .error .invalidAudience ∧
    (validar_token cfgEx (some docEx) FetchResult.networkError (.parsed tokBadAud) 1000).outcome
      = .httpError 401 "Token inválido ou expirado" ∧
    decodeJwt tokBadSig rsaEx ["RS256"] cfgEx.auth0Audience (expectedIssuer cfgEx) 1000 0
      = .error .invalidSignature ∧
    (validar_token cfgEx (some docEx) FetchResult.networkError (.parsed tokBadSig) 1000).outcome
      = .httpError 401 "Token inválido ou expirado" ∧
    decodeJwt tokExpired rsaEx ["RS256"] cfgEx.auth0Audience (expectedIssuer cfgEx) 1000 0
      = .error .expiredSignature ∧
    (validar_token cfgEx (some docEx) FetchResult.networkError (.parsed tokExpired) 1000).outcome
      = .httpError 401 "Token inválido ou expirado" :=
  c7_single_aspect_rejections cfgEx docEx FetchResult.networkError tokEx 1000 rsaEx
    rfl rfl rfl (by decide) (by decide)
    "https://attacker.example/" (by decide)
    ["https://other.example"] (by decide)
    (tokEx.sig ++ "0") (by decide)
    900 (by decide)

/-- Counterexample to claim C8 as stated: `tokBoundary` expires exactly at
`now = 1000` (the boundary; the call site configures no clock-skew
tolerance, so jose's default 0 applies) and carries an issued-at far in the
future, yet `validar_token` ACCEPTS it — the code rejects only strictly
after expiry and never compares issued-at to the clock. -/
theorem c8_counterexample :
    claimsBoundary.exp = 1000 ∧ claimsBoundary.iat = 99999 ∧
    (validar_token cfgEx (some docEx) FetchResult.networkError (.parsed tokBoundary) 1000).outcome
      = .payload claimsBoundary :=
  ⟨rfl, rfl, rfl⟩

/-- Claim C8 as amended: with the call site's implicit leeway of 0, an
otherwise-valid token is accepted exactly when `now ≤ exp` (so still at the
boundary itself) and rejected — with the generic 401, not a dedicated
TokenExpired kind — exactly when `now > exp`; the issued-at claim never
influences acceptance, because python-jose checks only `nbf`, not `iat`,
against the clock. -/
theorem c8_expiry_behavior (cfg : Config) (doc : JwksDoc) (fetch : FetchResult)
    (t : Token) (now : Int) (key : RsaKey)
    (hfind : findRsaKey (doc.keys?.getD []) t.kid? = some key)
    (halg : t.alg = "RS256")
    (hsig : t.sig = mkSig key.n key.e (signingInput t.alg t.kid? t.claims))
    (hnbf : nbfViolated t.claims.nbf? now 0 = false)
    (haud : cfg.auth0Audience ∈ t.claims.aud)
    (hiss : t.claims.iss = expectedIssuer cfg) :
    (now ≤ t.claims.exp →
      (validar_token cfg (some doc) fetch (.parsed t) now).outcome = .payload t.claims) ∧
    (t.claims.exp < now →
      (validar_token cfg (some doc) fetch (.parsed t) now).outcome
        = .httpError 401 "Token inválido ou expirado") := by
  constructor
  · intro hexp
    exact outcome_of_decode_ok cfg doc fetch t now key hfind
      (decodeJwt_ok t key cfg.auth0Audience (expectedIssuer cfg) now halg hsig hnbf
        hexp haud hiss)
  · intro hlt
    refine outcome_of_decode_error cfg doc fetch t now key .expiredSignature hfind ?_
    unfold decodeJwt
    rw [if_neg (by simp [halg]), if_neg (by simp [hsig]), if_neg (by simp [hnbf]),
      if_pos (by omega)]

/-- Witness for C8's amended theorem at `tokEx`, `now = 1000`. -/
theorem c8_witness :
    ((1000 : Int) ≤ tokEx.claims.exp →
      (validar_token cfgEx (some docEx) FetchResult.networkError (.parsed tokEx) 1000).outcome
        = .payload tokEx.claims) ∧
    (tokEx.claims.exp < (1000 : Int) →
      (validar_token cfgEx (some docEx) FetchResult.networkError (.parsed tokEx) 1000).outcome
        = .httpError 401 "Token inválido ou expirado") :=
  c8_expiry_behavior cfgEx docEx FetchResult.networkError tokEx 1000 rsaEx
    rfl rfl rfl rfl (by decide) rfl

/-- Claim C10: the key-matching loop returns the FIRST entry whose `kid`
matches the token's declared kid — whatever entries (including ones sharing
the same kid) come after it — and `validar_token`'s outcome is determined by
that first entry's key material alone. -/
theorem c10_first_matching_key_used (cfg : Config) (fetch : FetchResult)
    (pre : List JwkEntry) (k : JwkEntry) (post : List JwkEntry)
    (t : Token) (now : Int)
    (hpre : ∀ k' ∈ pre, some k'.kid ≠ t.kid?)
    (hkid : t.kid? = some k.kid) :
    findRsaKey (pre ++ k :: post) t.kid? = some (rsaOf k) ∧
    (validar_token cfg (some ⟨some (pre ++ k :: post)⟩) fetch (.parsed t) now).outcome =
      (match decodeJwt t (rsaOf k) ["RS256"] cfg.auth0Audience (expectedIssuer cfg) now 0 with
       | .ok c => AuthOutcome.payload c
       | .error _ => AuthOutcome.httpError 401 "Token inválido ou expirado") := by
  have hfind : findRsaKey (pre ++ k :: post) t.kid? = some (rsaOf k) :=
    findRsaKey_append pre k post t.kid? hpre hkid.symm
  refine ⟨hfind, ?_⟩
  cases hdec : decodeJwt t (rsaOf k) ["RS256"] cfg.auth0Audience (expectedIssuer cfg) now 0 with
  | ok c => simp [validar_token, obter_jwks, hfind, hdec]
  | error e => simp [validar_token, obter_jwks, hfind, hdec]

/-- Witness for C10: the key set `[keyEx, keyDup]` holds two entries with
kid `k1`; lookup resolves to `keyEx` and the token verifies with `keyEx`'s
material. -/
theorem c10_witness :
    findRsaKey ([] ++ keyEx :: [keyDup]) tokEx.kid? = some (rsaOf keyEx) ∧
    (validar_token cfgEx (some ⟨some ([] ++ keyEx :: [keyDup])⟩) FetchResult.networkError
        (.parsed tokEx) 1000).outcome =
      (match decodeJwt tokEx (rsaOf keyEx) ["RS256"] cfgEx.auth0Audience
          (expectedIssuer cfgEx) 1000 0 with
       | .ok c => AuthOutcome.payload c
       | .error _ => AuthOutcome.httpError 401 "Token inválido ou expirado") :=
  c10_first_matching_key_used cfgEx FetchResult.networkError [] keyEx [keyDup] tokEx 1000
    (by intro k' h; cases h) rfl
